import Mathlib

/-!
Shallow embedding of the `yyerf/whoami` portfolio pseudo-shells.

Two components carry the logic verified here:

* the general-purpose portfolio terminal (`Terminal` in
  `src/unnamed/part_001`): a virtual filesystem with a static directory
  registry, path resolution for `cd`, and directory listings;
* the CTF micro-puzzle shell (`CTFChallenge` in
  `src/src/components/CyberPanel.tsx`): a stateful command loop with
  privilege escalation, a hidden file, flag submission and best-time
  persistence.

Modelling conventions:

* JS strings are Lean `String`s; the character-level helpers below mirror
  `trim`, `split(/\s+/)`, `split('/')` and `join`.
* Times are whole milliseconds (`Nat`); `performance.now()` readings are
  passed in as parameters.  JS `NaN` arising from `parseFloat` is modelled
  by `JSNum.nan`, with the JS rule that every `<` comparison involving
  `NaN` is false.
* React state writes inside an event handler are batched: reads in the
  same handler observe the pre-handler snapshot.  The embedding therefore
  threads an explicit state record and, where the source reads a state
  variable it has just "set", reads the snapshot field (see `onCommand`).
* `localStorage` is modelled as an `Option String` cell carried in the
  state; a `writeOk` flag models whether `setItem` succeeds (the source
  wraps it in `try { ... } catch {}`).
* Transcript lines are content/kind pairs; the random `id` attached by
  the source is presentation-only and dropped.
-/

set_option maxRecDepth 8000

namespace Whoami

/-! ## Character-level string helpers (JS primitives) -/

/-- Whitespace test backing JS `trim` and the `\s+` tokenizer (inputs here
only involve ASCII whitespace, where the two notions agree). -/
def isWs (c : Char) : Bool := c.isWhitespace

/-- JS `String.prototype.trim`: drop whitespace from both ends. -/
def jsTrim (s : String) : String :=
  String.mk (((s.data.dropWhile isWs).reverse.dropWhile isWs).reverse)

/-- Accumulator loop for `splitWs`. -/
def splitWsAux : List Char → List Char → List String
  | [], acc => if acc.isEmpty then [] else [String.mk acc.reverse]
  | c :: cs, acc =>
    if isWs c then
      if acc.isEmpty then splitWsAux cs []
      else String.mk acc.reverse :: splitWsAux cs []
    else splitWsAux cs (c :: acc)

/-- JS `t.split(/\s+/)` for a trimmed string `t`: maximal runs of
non-whitespace characters (on trimmed input the regex split produces no
empty fields, which is the only way the source uses it). -/
def splitWs (s : String) : List String := splitWsAux s.data []

/-- Accumulator loop for `splitSlash`. -/
def splitSlashAux : List Char → List Char → List String
  | [], acc => [String.mk acc.reverse]
  | c :: cs, acc =>
    if c = '/' then String.mk acc.reverse :: splitSlashAux cs []
    else splitSlashAux cs (c :: acc)

/-- JS `s.split('/')`: every field kept, including empty ones. -/
def splitSlash (s : String) : List String := splitSlashAux s.data []

/-- JS `parts.join('/')`. -/
def joinSlash (l : List String) : String := String.intercalate "/" l

/-- JS `s.startsWith('~/')`. -/
def hasTildeSlash (s : String) : Bool :=
  match s.data with
  | '~' :: '/' :: _ => true
  | _ => false

/-- JS `s.replace(/^~\//, '')` (also serves as `s.slice(2)` in the one
place the source applies it, since there it is guarded by
`startsWith('~/')`). -/
def dropTildeSlash (s : String) : String :=
  match s.data with
  | '~' :: '/' :: rest => String.mk rest
  | _ => s

/-- Strict code-point comparison of characters. -/
def charLtb (a b : Char) : Bool := a.toNat < b.toNat

/-- Strict lexicographic comparison of character lists. -/
def charListLtb : List Char → List Char → Bool
  | [], [] => false
  | [], _ :: _ => true
  | _ :: _, [] => false
  | a :: as, b :: bs =>
    if charLtb a b = true then true
    else if charLtb b a = true then false
    else charListLtb as bs

/-- Strict lexicographic (code-point) comparison of strings. -/
def strLtb (a b : String) : Bool := charListLtb a.data b.data

/-- Lexicographic comparison on names, as a Bool `≤`.  The source uses
`localeCompare`, which coincides with code-point order on the plain
ASCII alphanumeric names appearing in this repository. -/
def strLe (a b : String) : Bool := strLtb a b || a == b

/-! ## Portfolio terminal: virtual filesystem -/

/-- The static directory registry (`directorySet`,
`src/unnamed/part_001` lines 122–131). -/
def directorySet : List String :=
  [ "~",
    "~/projects",
    "~/certifications",
    "~/certifications/cloud",
    "~/certifications/cybersecurity",
    "~/certifications/leadership",
    "~/certifications/participations",
    "~/certifications/programming" ]

/-- `currentSegments`: `current === '~' ? [] : current.replace(/^~\//,'').split('/')`. -/
def currentSegmentsOf (current : String) : List String :=
  if current = "~" then [] else splitSlash (dropTildeSlash current)

/-- The absolute candidate path `resolvePath` concatenates before
validating (`candidateAbs` in the source). -/
def candidateOf (current trimmed : String) : String :=
  let fromHome := if hasTildeSlash trimmed = true then dropTildeSlash trimmed else trimmed
  if hasTildeSlash trimmed = true then
    (if fromHome ≠ "" then "~/" ++ fromHome else "~")
  else "~/" ++ joinSlash (currentSegmentsOf current ++ [fromHome])

/-- `'~/<first>'`: the first-level prefix of a candidate path
(`parts.slice(0, 2).join('/')`). -/
def firstLevelOf (candidate : String) : String :=
  joinSlash ((splitSlash candidate).take 2)

/-- Validation of the concatenated candidate against the registry: the
tail of `resolvePath` after the `''`/`~`/`.`/`..` special cases
(`src/unnamed/part_001` lines 482–498). -/
def resolveCandidate (current candidate : String) : String :=
  if candidate = "~" then "~"
  else
    let parts := splitSlash candidate
    let firstLevel := joinSlash (parts.take 2)
    if directorySet.contains firstLevel = true then
      if parts.getD 1 "" = "certifications" then
        if parts.length = 3 then
          let subPath := joinSlash (parts.take 3)
          if directorySet.contains subPath = true then subPath else firstLevel
        else firstLevel
      else firstLevel
    else current

/-- `resolvePath` of the portfolio terminal
(`src/unnamed/part_001` lines 467–499). -/
def resolvePath (current target : String) : String :=
  let trimmed := jsTrim target
  if trimmed = "" then current
  else if trimmed = "~" then "~"
  else if trimmed = "." then current
  else if trimmed = ".." then
    let segs := currentSegmentsOf current
    if segs.length = 0 then "~"
    else
      let popped := segs.dropLast
      if popped.length ≠ 0 then "~/" ++ joinSlash popped else "~"
  else resolveCandidate current (candidateOf current trimmed)

/-- `normalizePath`: strip trailing slashes (`p.replace(/\/+$/, '')`),
`~` unchanged. -/
def normalizePath (p : String) : String :=
  if p = "~" then p
  else String.mk ((p.data.reverse.dropWhile (· = '/')).reverse)

/-- Kind tag of a listed entry. -/
inductive EKind
  | dir
  | file
deriving DecidableEq

/-- A directory-listing entry (`{ name, kind }`). -/
structure Entry where
  name : String
  kind : EKind
deriving DecidableEq

/-- Insert into a sorted list keeping earlier-equal elements first. -/
def insertLe (le : α → α → Bool) (a : α) : List α → List α
  | [] => [a]
  | b :: bs => if le a b = true then a :: b :: bs else b :: insertLe le a bs

/-- Stable sort by a boolean `≤`, modelling JS `Array.prototype.sort`
with a comparator (the comparators used here are total preorders). -/
def sortLe (le : α → α → Bool) : List α → List α
  | [] => []
  | a :: as => insertLe le a (sortLe le as)

/-- Name-wise `localeCompare` comparator `(a, b) => a.name.localeCompare(b.name)`. -/
def byNameLe (a b : Entry) : Bool := strLe a.name b.name

/-- The certification-category comparator: alphabetical, but
`on-going.txt` always pushed to the end
(`src/unnamed/part_001` lines 211–217). -/
def certCmpLe (a b : Entry) : Bool :=
  let aOngoing := a.name == "on-going.txt"
  let bOngoing := b.name == "on-going.txt"
  if aOngoing && !bOngoing then false
  else if bOngoing && !aOngoing then true
  else strLe a.name b.name

/-- `certificationFiles` as (name, category) pairs
(`src/unnamed/part_001` lines 150–166); the content strings play no role
in any listing claim and are omitted. -/
def certificationFiles : List (String × String) :=
  [ ("cloudCertificate1.txt", "cloud"),
    ("leadershipCertificate1.txt", "leadership"),
    ("leadershipCertificate2.txt", "leadership"),
    ("participationCertificate1.txt", "participations"),
    ("participationCertificate2.txt", "participations"),
    ("participationCertificate3.txt", "participations"),
    ("participationCertificate4.txt", "participations"),
    ("on-going.txt", "cloud"),
    ("on-going.txt", "cybersecurity"),
    ("on-going.txt", "leadership"),
    ("on-going.txt", "participations"),
    ("on-going.txt", "programming") ]

/-- The five certification category directory names. -/
def categoryNames : List String :=
  ["cloud", "cybersecurity", "leadership", "participations", "programming"]

/-- The anchored test
`/^~\/certifications\/(cloud|cybersecurity|leadership|participations|programming)$/`
as a decidable membership check. -/
def isCertCategoryPath (p : String) : Bool :=
  categoryNames.any (fun c => p == "~/certifications/" ++ c)

/-- `listDirectory` (`src/unnamed/part_001` lines 184–225). -/
def listDirectory (path : String) : List Entry :=
  let normalized := normalizePath path
  if normalized = "~" then
    sortLe byNameLe
      [ ⟨"about", .file⟩, ⟨"certifications", .dir⟩, ⟨"contact", .file⟩,
        ⟨"experience", .file⟩, ⟨"password.txt", .file⟩, ⟨"projects", .dir⟩ ]
  else if normalized = "~/certifications" then
    sortLe byNameLe (categoryNames.map (fun d => (⟨d, .dir⟩ : Entry)))
  else if isCertCategoryPath normalized = true then
    let category := (splitSlash normalized).getD 2 ""
    sortLe certCmpLe
      ((certificationFiles.filter (fun f => f.2 == category)).map
        (fun f => (⟨f.1, .file⟩ : Entry)))
  else if normalized = "~/projects" then
    sortLe byNameLe [⟨"portfolio-terminal.md", .file⟩, ⟨"guilds.md", .file⟩]
  else []

/-! ## Portfolio terminal: the `cd` command -/

/-- Kind tag of a terminal transcript line. -/
inductive TKind
  | command
  | output
  | error
deriving DecidableEq

/-- A terminal transcript line (content and kind; timestamps and ids are
presentation-only and dropped). -/
structure TLine where
  content : String
  kind : TKind
deriving DecidableEq

/-- The synthetic top prompt line echoed before each command. -/
def termPromptTop (currentPath : String) : TLine :=
  ⟨"┌──(yyerf㉿portfolio)-[" ++ currentPath ++ "]", .command⟩

/-- The synthetic bottom prompt line echoing the raw input. -/
def termPromptBottom (raw : String) : TLine := ⟨"└─$ " ++ raw, .command⟩

/-- The `cd` branch of the portfolio terminal's `executeCommand`
(`src/unnamed/part_001` lines 374–388): `target` is `args.join(' ')`,
`raw` the trimmed input line.  Returns the new `currentPath` and the
lines appended to the transcript. -/
def execCd (currentPath raw target : String) : String × List TLine :=
  let next := resolvePath currentPath target
  let pt := termPromptTop currentPath
  let pb := termPromptBottom raw
  if next = currentPath then
    if target ≠ "" ∧ target ≠ "." ∧ target ≠ "~" then
      (currentPath,
       [pt, pb, ⟨"bash: cd: " ++ target ++ ": No such file or directory", .error⟩])
    else (currentPath, [pt, pb])
  else (next, [pt, pb])

/-! ## CTF micro-puzzle shell (CyberPanel.tsx, `CTFChallenge`)

The component keeps a fixed working directory (`const [cwd] = useState('~')`
with no setter), so every `ls` lists the root directory. -/

/-- Kind tag of a puzzle transcript line (`PuzzleLine.kind`). -/
inductive PKind
  | out
  | sys
  | err
  | root
deriving DecidableEq

/-- A puzzle transcript line; the random `id` is presentation-only and
dropped. -/
structure PLine where
  content : String
  kind : PKind
deriving DecidableEq

/-- JS numbers as far as this component computes with them: whole
milliseconds or the `NaN` produced by a failed `parseFloat`. -/
inductive JSNum
  | nan
  | num (n : Nat)
deriving DecidableEq

/-- JS `<` on numbers: any comparison involving `NaN` is false. -/
def JSNum.ltb : JSNum → JSNum → Bool
  | .num a, .num b => a < b
  | _, _ => false

/-- ASCII decimal digit test. -/
def isDigitChar (c : Char) : Bool := 48 ≤ c.toNat && c.toNat ≤ 57

/-- Value of a decimal digit string, most significant first. -/
def digitsToNat : List Char → Nat → Nat
  | [], acc => acc
  | c :: cs, acc => digitsToNat cs (acc * 10 + (c.toNat - 48))

/-- JS `parseFloat` on the values this component encounters: the
component only ever writes decimal representations of whole-millisecond
durations, which parse back to themselves; a string that does not start
with a number (such as `"abc"`) yields `NaN`. -/
def parseFloat (s : String) : JSNum :=
  if s.data ≠ [] ∧ s.data.all (fun c => isDigitChar c = true) then
    .num (digitsToNat s.data 0)
  else .nan

/-- JS truthiness of `localStorage.getItem` results: `null` and the empty
string are falsy (`if(stored) ...`). -/
def truthyStore : Option String → Option String
  | some s => if s = "" then none else some s
  | none => none

/-- `FINAL_FLAG` (braces written with escapes). -/
def FINAL_FLAG : String := "FLAG\x7bur_cr@ck3d_brUh\x7d"

/-- `HIDDEN_FILENAME`. -/
def HIDDEN_FILENAME : String := ".shadow"

/-- `READ_ME`. -/
def READ_ME : String := "readme.txt"

/-- `FINAL_CIPHER`. -/
def FINAL_CIPHER : String := "c3Nz.blk"

/-- `PASSWORD`. -/
def PASSWORD : String := "Geof\"fr3y\"!@yyerf"

/-- `firstGreeting`. -/
def firstGreeting : String :=
  "There is a puzzle buried in this sandboxed shell. Escalate, enumerate, observe."

/-- `rootRiddle`. -/
def rootRiddle : String :=
  "I hide in plain sight yet ls ignores me. Reveal all and you\x27ll see me. Then read what I whisper."

/-- `escalateRiddle`. -/
def escalateRiddle : String :=
  "I speak before the crown is worn:\nThe path to secrets stays withdrawn.\nAscend with ritual (two words, both short),\nThen list again for a hidden report."

/-- `cipherRiddle`. -/
def cipherRiddle : String :=
  "Three roles rotate above: count their first initials then compress them. Present the cipher where S is the key. (use the encryption with the binary of 100000000)"

/-- The React state of `CTFChallenge`, together with the `localStorage`
cell at `BEST_KEY` (`store`).  `startTime`/`bestTime` are the timer
snapshot and cached best; `celebrated` is the one-shot celebration
latch. -/
structure CTFState where
  lines : List PLine
  solved : Bool
  root : Bool
  revealedHidden : Bool
  awaitingPassword : Bool
  startTime : Option Nat
  bestTime : Option JSNum
  celebrated : Bool
  store : Option String
deriving DecidableEq

/-- The constant working directory of the CTF shell. -/
def ctfCwd : String := "~"

/-- `promptTop()`: the top prompt line content, depending on privilege. -/
def promptTop (isRoot : Bool) : String :=
  if isRoot = true then "┌──(root㉿yyerf)-[" ++ ctfCwd ++ "]"
  else "┌──(yyerf㉿portfolio)-[" ++ ctfCwd ++ "]"

/-- `promptBottom()` (identical in both privilege modes). -/
def promptBottom : String := "└─$"

/-- The `append` helper: push one line onto the transcript. -/
def appendLine (s : CTFState) (content : String) (kind : PKind) : CTFState :=
  { s with lines := s.lines ++ [⟨content, kind⟩] }

/-- Line 240: `if(startTime === null) setStartTime(performance.now())`.
The write is batched, so later reads in the same handler still see the
snapshot value. -/
def startStamp (s : CTFState) (now : Nat) : CTFState :=
  if s.startTime = none then { s with startTime := some now } else s

/-- The six `help` output lines. -/
def helpLines : List PLine :=
  [ ⟨"help           show this help", .out⟩,
    ⟨"ls [-a]        list files", .out⟩,
    ⟨"cat <file>     read file", .out⟩,
    ⟨"cipher <val>   attempt final cipher", .out⟩,
    ⟨"submit <flag>  submit flag", .out⟩,
    ⟨"clear          clear screen", .out⟩ ]

/-- The entry list `doLs` joins for display:
`[READ_ME]` plus the hidden file exactly when root and `-a`. -/
def ctfLsEntries (isRoot all : Bool) : List String :=
  if isRoot && all then [READ_ME] ++ [HIDDEN_FILENAME] else [READ_ME]

/-- `doLs` (CyberPanel.tsx lines 204–213): the hidden file is listed only
if root and `-a`; listing it also sets `revealedHidden`. -/
def doLs (s : CTFState) (all : Bool) : CTFState :=
  if s.root && all then
    appendLine { s with revealedHidden := true }
      (String.intercalate "  " ([READ_ME] ++ [HIDDEN_FILENAME])) .out
  else appendLine s (String.intercalate "  " [READ_ME]) .out

/-- `doCat` (CyberPanel.tsx lines 215–227). -/
def doCat (s : CTFState) (file : String) : CTFState :=
  if file = READ_ME then appendLine s escalateRiddle .out
  else if file = HIDDEN_FILENAME then
    if s.root = false then
      appendLine s ("cat: " ++ file ++ ": No such file or directory") .err
    else if s.revealedHidden = false then
      appendLine s "Permission denied (list with -a after escalation)." .err
    else appendLine s cipherRiddle .out
  else appendLine s ("cat: " ++ file ++ ": No such file or directory") .err

/-- `tryCipher` (CyberPanel.tsx lines 229–234). -/
def tryCipher (s : CTFState) (val : String) : CTFState :=
  if val = FINAL_CIPHER then
    appendLine
      (appendLine s "Cipher accepted. Decrypting ..." .out)
      "Use submission: FLAG\x7bur_cr@ck3d_brUh\x7d" .out
  else appendLine s "Invalid cipher" .err

/-- The `submit` success path (CyberPanel.tsx lines 271–287).
`staleStart` is the render-snapshot `startTime` the handler closed over;
`writeOk` is whether `localStorage.setItem` succeeds (its failure is
caught and swallowed; `setBestTime` runs outside the `try`). -/
def submitSuccess (s : CTFState) (now : Nat) (writeOk : Bool)
    (staleStart : Option Nat) : CTFState :=
  let s1 := { appendLine s "✔ Correct flag. Challenge complete." PKind.root with
              solved := true }
  match staleStart with
  | none => s1
  | some st =>
    let duration := now - st
    let existingBest :=
      match s.bestTime with
      | some b => some b
      | none =>
        match truthyStore s.store with
        | some stored => some (parseFloat stored)
        | none => none
    match existingBest with
    | none =>
      { s1 with
        store := if writeOk = true then some (Nat.repr duration) else s1.store,
        bestTime := some (.num duration) }
    | some b =>
      if JSNum.ltb (.num duration) b = true then
        { s1 with
          store := if writeOk = true then some (Nat.repr duration) else s1.store,
          bestTime := some (.num duration) }
      else { s1 with bestTime := some b }

/-- The argument string a command receives:
`const [cmd, ...rest] = t.split(/\s+/); const arg = rest.join(' ')`. -/
def argOf (raw : String) : String :=
  String.intercalate " " (splitWs (jsTrim raw)).tail

/-- `onCommand` (CyberPanel.tsx lines 236–295).  `now` is the value
`performance.now()` returns during this handler; `writeOk` is whether
`localStorage.setItem` succeeds.  Reads of `startTime`, `root`,
`bestTime` use the pre-handler snapshot `s`, matching React's batched
state updates. -/
def onCommand (now : Nat) (writeOk : Bool) (raw : String) (s : CTFState) :
    CTFState :=
  let t := jsTrim raw
  if t = "" then s
  else
    let s1 := startStamp s now
    if s.awaitingPassword = true then
      if t = PASSWORD then
        appendLine
          (appendLine { s1 with awaitingPassword := false, root := true }
            "Privilege escalation successful. Welcome root." .root)
          rootRiddle .out
      else appendLine s1 "Sorry, try again." .err
    else
      let s2 := appendLine (appendLine s1 (promptTop s.root) .sys)
        (promptBottom ++ " " ++ t) .sys
      let toks := splitWs t
      let cmd := toks.headD ""
      let rest := toks.tail
      let arg := String.intercalate " " rest
      if cmd = "help" then { s2 with lines := s2.lines ++ helpLines }
      else if cmd = "clear" then { s2 with lines := [] }
      else if cmd = "sudo" then
        if rest.headD "" = "su" then
          if s.root = true then appendLine s2 "Already root." .err
          else appendLine { s2 with awaitingPassword := true }
            "[sudo] password for yyerf:" .sys
        else appendLine s2 "usage: sudo su" .err
      else if cmd = "ls" then doLs s2 (rest.contains "-a")
      else if cmd = "cat" then
        if arg = "" then appendLine s2 "cat: missing operand" .err
        else doCat s2 arg
      else if cmd = "submit" then
        if arg = FINAL_FLAG then submitSuccess s2 now writeOk s.startTime
        else appendLine s2 "Incorrect flag" .err
      else if cmd = "cipher" then tryCipher s2 arg
      else appendLine s2 "Unknown command" .err

/-- The state after the initial guards of `onCommand` in command mode:
timer stamped and the two synthetic prompt lines echoed
(CyberPanel.tsx line 253). -/
def echoState (now : Nat) (raw : String) (s : CTFState) : CTFState :=
  appendLine (appendLine (startStamp s now) (promptTop s.root) .sys)
    (promptBottom ++ " " ++ jsTrim raw) .sys

/-- The startup best-time load effect (CyberPanel.tsx lines 298–300):
the cached `bestTime` after mount, given the stored string. -/
def loadBest (store : Option String) : Option JSNum :=
  match truthyStore store with
  | some stored => some (parseFloat stored)
  | none => none

/-- The state right after mount and the startup load effect, given the
persisted `localStorage` content. -/
def initialCTF (store : Option String) : CTFState :=
  { lines := [⟨firstGreeting, .sys⟩], solved := false, root := false,
    revealedHidden := false, awaitingPassword := false, startTime := none,
    bestTime := loadBest store, celebrated := false, store := store }

/-- The Replay button (CyberPanel.tsx line 330): resets the transcript,
`solved`, the celebration latch and the timer — nothing else. -/
def replay (s : CTFState) : CTFState :=
  { s with lines := [⟨firstGreeting, .sys⟩], solved := false,
           celebrated := false, startTime := none }

/-- The celebration effect (CyberPanel.tsx lines 147–188): a one-shot
latch set when `solved` holds and not yet celebrated; the confetti and
audio it triggers are presentation-only. -/
def celebrationEffect (s : CTFState) : CTFState :=
  if s.solved && !s.celebrated then { s with celebrated := true } else s

/-- Everything that can drive the component: a submitted command line
(with its clock reading and storage-write outcome), a Replay click, or a
render pass running the celebration effect. -/
inductive Event
  | cmd (now : Nat) (writeOk : Bool) (raw : String)
  | replayClick
  | rendered

/-- One event step. -/
def applyEvent (s : CTFState) : Event → CTFState
  | .cmd now writeOk raw => onCommand now writeOk raw s
  | .replayClick => replay s
  | .rendered => celebrationEffect s

/-- Run a sequence of events. -/
def runEvents (s : CTFState) (evs : List Event) : CTFState :=
  evs.foldl applyEvent s

/-- A mid-session probe state: rooted, hidden revealed, timer started at
0 ms, best time not yet cached in memory, with the given persisted store
content. -/
def bestTimeProbe (stored : Option String) : CTFState :=
  { lines := [⟨firstGreeting, .sys⟩], solved := false, root := true,
    revealedHidden := true, awaitingPassword := false, startTime := some 0,
    bestTime := none, celebrated := false, store := stored }

/-- The state over a non-numeric persisted best after the startup load
effect, mid-session (timer already started). -/
def nanProbe : CTFState :=
  { bestTimeProbe (some "abc") with bestTime := loadBest (some "abc") }

/-- A state awaiting the sudo password. -/
def awaitingProbe : CTFState :=
  { initialCTF none with awaitingPassword := true, startTime := some 1 }

/-- Sortedness up to a trailing sentinel: every earlier/later pair is
either "later entry is the sentinel" or strictly ordered non-sentinel
names.  For a listing containing the sentinel once this says exactly:
the sentinel is last and everything else is strictly sorted. -/
def sortedExceptLast (sentinel : String) (names : List String) : Prop :=
  List.Pairwise (fun a b => b = sentinel ∨ (a ≠ sentinel ∧ strLtb a b = true)) names

instance (sentinel : String) (names : List String) :
    Decidable (sortedExceptLast sentinel names) := by
  unfold sortedExceptLast
  infer_instance

/-! ## Helper lemmas -/

lemma jsTrim_ne_of_headD {raw c : String} (hc : c ≠ "")
    (h : (splitWs (jsTrim raw)).headD "" = c) : jsTrim raw ≠ "" := by
  intro he
  rw [he] at h
  exact hc h.symm

lemma appendLine_lines (s : CTFState) (c : String) (k : PKind) :
    (appendLine s c k).lines = s.lines ++ [⟨c, k⟩] := rfl

lemma startStamp_root (s : CTFState) (now : Nat) :
    (startStamp s now).root = s.root := by
  unfold startStamp; split <;> rfl

lemma startStamp_solved (s : CTFState) (now : Nat) :
    (startStamp s now).solved = s.solved := by
  unfold startStamp; split <;> rfl

lemma startStamp_revealedHidden (s : CTFState) (now : Nat) :
    (startStamp s now).revealedHidden = s.revealedHidden := by
  unfold startStamp; split <;> rfl

lemma startStamp_awaitingPassword (s : CTFState) (now : Nat) :
    (startStamp s now).awaitingPassword = s.awaitingPassword := by
  unfold startStamp; split <;> rfl

lemma startStamp_bestTime (s : CTFState) (now : Nat) :
    (startStamp s now).bestTime = s.bestTime := by
  unfold startStamp; split <;> rfl

lemma startStamp_store (s : CTFState) (now : Nat) :
    (startStamp s now).store = s.store := by
  unfold startStamp; split <;> rfl

lemma startStamp_lines (s : CTFState) (now : Nat) :
    (startStamp s now).lines = s.lines := by
  unfold startStamp; split <;> rfl

lemma echoState_lines (now : Nat) (raw : String) (s : CTFState) :
    (echoState now raw s).lines = s.lines ++
      [⟨promptTop s.root, .sys⟩, ⟨promptBottom ++ " " ++ jsTrim raw, .sys⟩] := by
  simp [echoState, appendLine, startStamp_lines]

lemma echoState_root (now : Nat) (raw : String) (s : CTFState) :
    (echoState now raw s).root = s.root := by
  simp [echoState, appendLine, startStamp_root]

lemma echoState_solved (now : Nat) (raw : String) (s : CTFState) :
    (echoState now raw s).solved = s.solved := by
  simp [echoState, appendLine, startStamp_solved]

lemma echoState_revealedHidden (now : Nat) (raw : String) (s : CTFState) :
    (echoState now raw s).revealedHidden = s.revealedHidden := by
  simp [echoState, appendLine, startStamp_revealedHidden]

lemma echoState_awaitingPassword (now : Nat) (raw : String) (s : CTFState) :
    (echoState now raw s).awaitingPassword = s.awaitingPassword := by
  simp [echoState, appendLine, startStamp_awaitingPassword]

lemma echoState_bestTime (now : Nat) (raw : String) (s : CTFState) :
    (echoState now raw s).bestTime = s.bestTime := by
  simp [echoState, appendLine, startStamp_bestTime]

lemma echoState_store (now : Nat) (raw : String) (s : CTFState) :
    (echoState now raw s).store = s.store := by
  simp [echoState, appendLine, startStamp_store]

lemma onCommand_submit_eq (now : Nat) (w : Bool) (raw : String) (s : CTFState)
    (hap : s.awaitingPassword = false)
    (hcmd : (splitWs (jsTrim raw)).headD "" = "submit") :
    onCommand now w raw s =
      if argOf raw = FINAL_FLAG
      then submitSuccess (echoState now raw s) now w s.startTime
      else appendLine (echoState now raw s) "Incorrect flag" PKind.err := by
  have ht := jsTrim_ne_of_headD (by decide) hcmd
  simp only [onCommand, echoState, argOf, hcmd, hap]
  rw [if_neg ht]
  simp

lemma onCommand_ls_eq (now : Nat) (w : Bool) (raw : String) (s : CTFState)
    (hap : s.awaitingPassword = false)
    (hcmd : (splitWs (jsTrim raw)).headD "" = "ls") :
    onCommand now w raw s =
      doLs (echoState now raw s) ((splitWs (jsTrim raw)).tail.contains "-a") := by
  have ht := jsTrim_ne_of_headD (by decide) hcmd
  simp only [onCommand, echoState, hcmd, hap]
  rw [if_neg ht]
  simp

lemma onCommand_cat_eq (now : Nat) (w : Bool) (raw : String) (s : CTFState)
    (hap : s.awaitingPassword = false)
    (hcmd : (splitWs (jsTrim raw)).headD "" = "cat") :
    onCommand now w raw s =
      if argOf raw = "" then appendLine (echoState now raw s) "cat: missing operand" .err
      else doCat (echoState now raw s) (argOf raw) := by
  have ht := jsTrim_ne_of_headD (by decide) hcmd
  simp only [onCommand, echoState, argOf, hcmd, hap]
  rw [if_neg ht]
  simp

lemma onCommand_awaiting_wrong (now : Nat) (w : Bool) (g : String) (s : CTFState)
    (hap : s.awaitingPassword = true) (hne : jsTrim g ≠ PASSWORD)
    (hnz : jsTrim g ≠ "") :
    onCommand now w g s = appendLine (startStamp s now) "Sorry, try again." .err := by
  simp only [onCommand, hap]
  rw [if_neg hnz, if_pos trivial, if_neg hne]

lemma submitSuccess_solved (s : CTFState) (now : Nat) (w : Bool) (st : Option Nat) :
    (submitSuccess s now w st).solved = true := by
  unfold submitSuccess
  rcases st with _ | st
  · rfl
  · dsimp only
    split
    · rfl
    · split <;> rfl

lemma submitSuccess_lines (s : CTFState) (now : Nat) (w : Bool) (st : Option Nat) :
    (submitSuccess s now w st).lines =
      s.lines ++ [⟨"✔ Correct flag. Challenge complete.", .root⟩] := by
  unfold submitSuccess
  rcases st with _ | st
  · rfl
  · dsimp only
    split
    · rfl
    · split <;> rfl

lemma submitSuccess_root (s : CTFState) (now : Nat) (w : Bool) (st : Option Nat) :
    (submitSuccess s now w st).root = s.root := by
  unfold submitSuccess
  rcases st with _ | st
  · rfl
  · dsimp only
    split
    · rfl
    · split <;> rfl

lemma submitSuccess_revealedHidden (s : CTFState) (now : Nat) (w : Bool)
    (st : Option Nat) :
    (submitSuccess s now w st).revealedHidden = s.revealedHidden := by
  unfold submitSuccess
  rcases st with _ | st
  · rfl
  · dsimp only
    split
    · rfl
    · split <;> rfl

lemma submitSuccess_awaitingPassword (s : CTFState) (now : Nat) (w : Bool)
    (st : Option Nat) :
    (submitSuccess s now w st).awaitingPassword = s.awaitingPassword := by
  unfold submitSuccess
  rcases st with _ | st
  · rfl
  · dsimp only
    split
    · rfl
    · split <;> rfl

lemma submitSuccess_bestTime_indep (s : CTFState) (now : Nat) (w : Bool)
    (st : Option Nat) :
    (submitSuccess s now w st).bestTime = (submitSuccess s now true st).bestTime := by
  unfold submitSuccess
  rcases st with _ | st
  · rfl
  · dsimp only
    split
    · rfl
    · split <;> rfl

lemma submitSuccess_store_nan (s : CTFState) (now : Nat) (w : Bool)
    (st : Nat) (hbt : s.bestTime = some JSNum.nan) :
    (submitSuccess s now w (some st)).store = s.store := by
  unfold submitSuccess
  rw [hbt]
  rfl

lemma submitSuccess_store_lazy (s : CTFState) (now st : Nat)
    (hbt : s.bestTime = none) :
    (submitSuccess s now true (some st)).store =
      (match truthyStore s.store with
       | none => some (Nat.repr (now - st))
       | some stored =>
         match parseFloat stored with
         | JSNum.nan => s.store
         | JSNum.num b =>
           if now - st < b then some (Nat.repr (now - st)) else s.store) := by
  unfold submitSuccess
  rw [hbt]
  dsimp only
  rcases hts : truthyStore s.store with _ | stored
  · rfl
  · dsimp only
    rcases hpf : parseFloat stored with _ | b
    · simp [JSNum.ltb, appendLine]
    · dsimp only [JSNum.ltb]
      by_cases hlt : now - st < b
      · simp [hlt]
      · simp [hlt, appendLine]

lemma submitSuccess_bestTime_lazy (s : CTFState) (now st : Nat)
    (hbt : s.bestTime = none) :
    (submitSuccess s now true (some st)).bestTime =
      (match truthyStore s.store with
       | none => some (JSNum.num (now - st))
       | some stored =>
         match parseFloat stored with
         | JSNum.nan => some JSNum.nan
         | JSNum.num b =>
           if now - st < b then some (JSNum.num (now - st))
           else some (JSNum.num b)) := by
  unfold submitSuccess
  rw [hbt]
  dsimp only
  rcases hts : truthyStore s.store with _ | stored
  · rfl
  · dsimp only
    rcases hpf : parseFloat stored with _ | b
    · simp [JSNum.ltb, appendLine]
    · dsimp only [JSNum.ltb]
      by_cases hlt : now - st < b
      · simp [hlt]
      · simp [hlt, appendLine]

lemma submitSuccess_store_cached (s : CTFState) (now st b : Nat)
    (hbt : s.bestTime = some (JSNum.num b)) :
    (submitSuccess s now true (some st)).store =
      (if now - st < b then some (Nat.repr (now - st)) else s.store) := by
  unfold submitSuccess
  rw [hbt]
  dsimp only [JSNum.ltb]
  by_cases hlt : now - st < b
  · simp [hlt]
  · simp [hlt, appendLine]

lemma submitSuccess_bestTime_cached (s : CTFState) (now st b : Nat)
    (hbt : s.bestTime = some (JSNum.num b)) :
    (submitSuccess s now true (some st)).bestTime =
      (if now - st < b then some (JSNum.num (now - st))
       else some (JSNum.num b)) := by
  unfold submitSuccess
  rw [hbt]
  dsimp only [JSNum.ltb]
  by_cases hlt : now - st < b
  · simp [hlt]
  · simp [hlt, appendLine]

lemma doLs_lines (s : CTFState) (a : Bool) :
    (doLs s a).lines =
      s.lines ++ [⟨String.intercalate "  " (ctfLsEntries s.root a), .out⟩] := by
  unfold doLs ctfLsEntries
  split <;> simp_all [appendLine]

lemma doLs_root (s : CTFState) (a : Bool) : (doLs s a).root = s.root := by
  unfold doLs; split <;> rfl

lemma doLs_solved (s : CTFState) (a : Bool) : (doLs s a).solved = s.solved := by
  unfold doLs; split <;> rfl

lemma doLs_awaitingPassword (s : CTFState) (a : Bool) :
    (doLs s a).awaitingPassword = s.awaitingPassword := by
  unfold doLs; split <;> rfl

lemma doLs_store (s : CTFState) (a : Bool) : (doLs s a).store = s.store := by
  unfold doLs; split <;> rfl

lemma doLs_revealedHidden (s : CTFState) (a : Bool) :
    (doLs s a).revealedHidden = ((s.root && a) || s.revealedHidden) := by
  unfold doLs
  split <;> simp_all [appendLine]

lemma doCat_root (s : CTFState) (f : String) : (doCat s f).root = s.root := by
  unfold doCat
  repeat' split
  all_goals rfl

lemma doCat_solved (s : CTFState) (f : String) : (doCat s f).solved = s.solved := by
  unfold doCat
  repeat' split
  all_goals rfl

lemma doCat_revealedHidden (s : CTFState) (f : String) :
    (doCat s f).revealedHidden = s.revealedHidden := by
  unfold doCat
  repeat' split
  all_goals rfl

lemma doCat_awaitingPassword (s : CTFState) (f : String) :
    (doCat s f).awaitingPassword = s.awaitingPassword := by
  unfold doCat
  repeat' split
  all_goals rfl

lemma doCat_store (s : CTFState) (f : String) : (doCat s f).store = s.store := by
  unfold doCat
  repeat' split
  all_goals rfl

lemma tryCipher_root (s : CTFState) (v : String) : (tryCipher s v).root = s.root := by
  unfold tryCipher; split <;> rfl

lemma tryCipher_solved (s : CTFState) (v : String) :
    (tryCipher s v).solved = s.solved := by
  unfold tryCipher; split <;> rfl

lemma tryCipher_revealedHidden (s : CTFState) (v : String) :
    (tryCipher s v).revealedHidden = s.revealedHidden := by
  unfold tryCipher; split <;> rfl

lemma tryCipher_store (s : CTFState) (v : String) :
    (tryCipher s v).store = s.store := by
  unfold tryCipher; split <;> rfl

lemma onCommand_root_mono (now : Nat) (w : Bool) (raw : String) (s : CTFState)
    (hr : s.root = true) : (onCommand now w raw s).root = true := by
  by_cases ht : jsTrim raw = ""
  · simp only [onCommand]; rw [if_pos ht]; exact hr
  · by_cases hap : s.awaitingPassword = true
    · by_cases hpw : jsTrim raw = PASSWORD
      · simp only [onCommand]
        rw [if_neg ht, if_pos hap, if_pos hpw]
        simp [appendLine]
      · simp only [onCommand]
        rw [if_neg ht, if_pos hap, if_neg hpw]
        simp [appendLine, startStamp_root, hr]
    · simp only [onCommand]
      rw [if_neg ht, if_neg hap]
      repeat' split
      all_goals
        simp [appendLine, startStamp_root, doLs_root, doCat_root, tryCipher_root,
          submitSuccess_root, hr]

lemma onCommand_reveal_mono (now : Nat) (w : Bool) (raw : String) (s : CTFState)
    (hr : s.revealedHidden = true) :
    (onCommand now w raw s).revealedHidden = true := by
  by_cases ht : jsTrim raw = ""
  · simp only [onCommand]; rw [if_pos ht]; exact hr
  · by_cases hap : s.awaitingPassword = true
    · by_cases hpw : jsTrim raw = PASSWORD
      · simp only [onCommand]
        rw [if_neg ht, if_pos hap, if_pos hpw]
        simp [appendLine, startStamp_revealedHidden, hr]
      · simp only [onCommand]
        rw [if_neg ht, if_pos hap, if_neg hpw]
        simp [appendLine, startStamp_revealedHidden, hr]
    · simp only [onCommand]
      rw [if_neg ht, if_neg hap]
      repeat' split
      all_goals
        simp [appendLine, startStamp_revealedHidden, doLs_revealedHidden,
          doCat_revealedHidden, tryCipher_revealedHidden, submitSuccess_revealedHidden, hr]

lemma replay_root (s : CTFState) : (replay s).root = s.root := rfl

lemma replay_revealedHidden (s : CTFState) :
    (replay s).revealedHidden = s.revealedHidden := rfl

lemma celebrationEffect_root (s : CTFState) :
    (celebrationEffect s).root = s.root := by
  unfold celebrationEffect; split <;> rfl

lemma celebrationEffect_revealedHidden (s : CTFState) :
    (celebrationEffect s).revealedHidden = s.revealedHidden := by
  unfold celebrationEffect; split <;> rfl

lemma applyEvent_root_mono (s : CTFState) (e : Event) (hr : s.root = true) :
    (applyEvent s e).root = true := by
  cases e with
  | cmd now w raw => exact onCommand_root_mono now w raw s hr
  | replayClick => rw [applyEvent, replay_root]; exact hr
  | rendered => rw [applyEvent, celebrationEffect_root]; exact hr

lemma applyEvent_reveal_mono (s : CTFState) (e : Event)
    (hr : s.revealedHidden = true) : (applyEvent s e).revealedHidden = true := by
  cases e with
  | cmd now w raw => exact onCommand_reveal_mono now w raw s hr
  | replayClick => rw [applyEvent, replay_revealedHidden]; exact hr
  | rendered => rw [applyEvent, celebrationEffect_revealedHidden]; exact hr

lemma contains_directorySet_cases {c : String}
    (h : directorySet.contains c = true) :
    c = "~" ∨ c = "~/projects" ∨ c = "~/certifications" ∨
    c = "~/certifications/cloud" ∨ c = "~/certifications/cybersecurity" ∨
    c = "~/certifications/leadership" ∨ c = "~/certifications/participations" ∨
    c = "~/certifications/programming" := by
  have h2 : c ∈ directorySet := by
    simpa using h
  simpa [directorySet] using h2

lemma resolveCandidate_registered (cur c : String)
    (h : directorySet.contains c = true) : resolveCandidate cur c = c := by
  rcases contains_directorySet_cases h with h | h | h | h | h | h | h | h <;>
    subst h <;> rfl

lemma resolveCandidate_result (cur c : String) :
    resolveCandidate cur c = cur ∨
      directorySet.contains (resolveCandidate cur c) = true := by
  unfold resolveCandidate
  split
  · right; decide
  · dsimp only
    split
    · split
      · split
        · split
          · right; assumption
          · right; assumption
        · right; assumption
      · right; assumption
    · left; rfl

lemma resolveCandidate_not_registered (cur c : String)
    (h : directorySet.contains (firstLevelOf c) = false) :
    resolveCandidate cur c = cur := by
  unfold resolveCandidate
  split
  · next hc =>
    subst hc
    exact absurd h (by decide)
  · dsimp only
    simp only [firstLevelOf] at h
    have h2 : ¬ joinSlash ((splitSlash c).take 2) ∈ directorySet := by
      simpa using h
    simp [h2]

lemma resolvePath_general (cur target : String) (h0 : jsTrim target ≠ "")
    (h1 : jsTrim target ≠ "~") (h2 : jsTrim target ≠ ".")
    (h3 : jsTrim target ≠ "..") :
    resolvePath cur target = resolveCandidate cur (candidateOf cur (jsTrim target)) := by
  simp only [resolvePath]
  rw [if_neg h0, if_neg h1, if_neg h2, if_neg h3]

lemma hidden_mem_ctfLsEntries (r a : Bool) :
    HIDDEN_FILENAME ∈ ctfLsEntries r a ↔ (r = true ∧ a = true) := by
  cases r <;> cases a <;> decide

/-! ## Claims -/

/-- C1: for an input line dispatched as the `submit` command (the shell is
not in password-entry mode), the puzzle is marked Solved iff the parsed
argument equals the exact flag literal — independently of every other
state component, in particular of whether the cipher was previously
accepted (the code keeps no cipher-accept state at all); a mismatch
appends exactly one Error line "Incorrect flag" after the two prompt echo
lines and leaves `solved` unchanged. -/
theorem submit_flag_gates_solved (s : CTFState) (now : Nat) (writeOk : Bool)
    (raw : String) (hap : s.awaitingPassword = false)
    (hcmd : (splitWs (jsTrim raw)).headD "" = "submit") :
    (argOf raw = FINAL_FLAG → (onCommand now writeOk raw s).solved = true) ∧
    (argOf raw ≠ FINAL_FLAG →
      (onCommand now writeOk raw s).solved = s.solved ∧
      (onCommand now writeOk raw s).lines = s.lines ++
        [⟨promptTop s.root, .sys⟩, ⟨promptBottom ++ " " ++ jsTrim raw, .sys⟩,
         ⟨"Incorrect flag", .err⟩]) := by
  rw [onCommand_submit_eq now writeOk raw s hap hcmd]
  constructor
  · intro h
    rw [if_pos h, submitSuccess_solved]
  · intro h
    rw [if_neg h]
    constructor
    · simp [appendLine, echoState_solved]
    · simp [appendLine_lines, echoState_lines]

/-- C1 witness: the exact flag solves from a fresh session; a wrong flag
leaves `solved` untouched. -/
theorem submit_flag_gates_solved_witness :
    (initialCTF none).awaitingPassword = false ∧
    (splitWs (jsTrim "submit FLAG\x7bur_cr@ck3d_brUh\x7d")).headD "" = "submit" ∧
    (onCommand 5 true "submit FLAG\x7bur_cr@ck3d_brUh\x7d" (initialCTF none)).solved = true ∧
    (onCommand 7 true "submit nope" (initialCTF none)).solved = (initialCTF none).solved :=
  ⟨by decide, by decide,
   (submit_flag_gates_solved (initialCTF none) 5 true "submit FLAG\x7bur_cr@ck3d_brUh\x7d"
      (by decide) (by decide)).1 (by decide),
   ((submit_flag_gates_solved (initialCTF none) 7 true "submit nope"
      (by decide) (by decide)).2 (by decide)).1⟩

/-- C2: for an `ls` command line, the hidden sentinel filename is in the
listing entries iff privilege is Root and `-a` is among the argument
tokens and the listing target is the root directory (the CTF shell's
working directory is the constant `~`, so the third conjunct is always
satisfied); the emitted output line is exactly the join of those entries,
and whenever the hidden file is listed, `revealedHidden` becomes true. -/
theorem ls_hidden_iff (s : CTFState) (now : Nat) (writeOk : Bool)
    (raw : String) (hap : s.awaitingPassword = false)
    (hcmd : (splitWs (jsTrim raw)).headD "" = "ls") :
    (HIDDEN_FILENAME ∈ ctfLsEntries s.root ((splitWs (jsTrim raw)).tail.contains "-a") ↔
      (s.root = true ∧ (splitWs (jsTrim raw)).tail.contains "-a" = true ∧ ctfCwd = "~")) ∧
    ((onCommand now writeOk raw s).lines = s.lines ++
      [⟨promptTop s.root, .sys⟩, ⟨promptBottom ++ " " ++ jsTrim raw, .sys⟩,
       ⟨String.intercalate "  "
         (ctfLsEntries s.root ((splitWs (jsTrim raw)).tail.contains "-a")), .out⟩]) ∧
    (HIDDEN_FILENAME ∈ ctfLsEntries s.root ((splitWs (jsTrim raw)).tail.contains "-a") →
      (onCommand now writeOk raw s).revealedHidden = true) := by
  refine ⟨?_, ?_, ?_⟩
  · rw [hidden_mem_ctfLsEntries]
    simp [ctfCwd]
  · rw [onCommand_ls_eq now writeOk raw s hap hcmd, doLs_lines]
    simp [echoState_lines, echoState_root]
  · intro h
    rw [onCommand_ls_eq now writeOk raw s hap hcmd, doLs_revealedHidden]
    rcases (hidden_mem_ctfLsEntries _ _).mp h with ⟨hr, ha⟩
    have ha2 : "-a" ∈ (splitWs (jsTrim raw)).tail := by simpa using ha
    simp [echoState_root, hr, ha2]

/-- C2 witness: as Root, `ls -a` lists the hidden file and sets
`revealedHidden`. -/
theorem ls_hidden_iff_witness :
    ({ initialCTF none with root := true } : CTFState).awaitingPassword = false ∧
    (splitWs (jsTrim "ls -a")).headD "" = "ls" ∧
    HIDDEN_FILENAME ∈ ctfLsEntries ({ initialCTF none with root := true } : CTFState).root
      ((splitWs (jsTrim "ls -a")).tail.contains "-a") ∧
    (onCommand 5 true "ls -a" { initialCTF none with root := true }).revealedHidden = true :=
  ⟨by decide, by decide, by decide,
   (ls_hidden_iff { initialCTF none with root := true } 5 true "ls -a"
      (by decide) (by decide)).2.2 (by decide)⟩

/-- C3: for a `cat` command line whose argument is the hidden sentinel
file, exactly one of three outcomes occurs, and it is determined by
privilege and `revealedHidden`: non-root gets the NotFound-style error,
root before reveal gets the distinct Permission-denied error, root after
reveal gets the riddle content as output — in each case exactly one line
after the two prompt echoes. -/
theorem cat_hidden_trichotomy (s : CTFState) (now : Nat) (writeOk : Bool)
    (raw : String) (hap : s.awaitingPassword = false)
    (hcmd : (splitWs (jsTrim raw)).headD "" = "cat")
    (harg : argOf raw = HIDDEN_FILENAME) :
    (s.root = false →
      (onCommand now writeOk raw s).lines = s.lines ++
        [⟨promptTop s.root, .sys⟩, ⟨promptBottom ++ " " ++ jsTrim raw, .sys⟩,
         ⟨"cat: " ++ HIDDEN_FILENAME ++ ": No such file or directory", .err⟩]) ∧
    (s.root = true → s.revealedHidden = false →
      (onCommand now writeOk raw s).lines = s.lines ++
        [⟨promptTop s.root, .sys⟩, ⟨promptBottom ++ " " ++ jsTrim raw, .sys⟩,
         ⟨"Permission denied (list with -a after escalation).", .err⟩]) ∧
    (s.root = true → s.revealedHidden = true →
      (onCommand now writeOk raw s).lines = s.lines ++
        [⟨promptTop s.root, .sys⟩, ⟨promptBottom ++ " " ++ jsTrim raw, .sys⟩,
         ⟨cipherRiddle, .out⟩]) := by
  have hstep := onCommand_cat_eq now writeOk raw s hap hcmd
  rw [harg, if_neg (by decide : ¬ (HIDDEN_FILENAME = ""))] at hstep
  refine ⟨?_, ?_, ?_⟩
  · intro hroot
    rw [hstep]
    unfold doCat
    rw [if_neg (by decide : ¬ (HIDDEN_FILENAME = READ_ME)), if_pos rfl,
        if_pos (by rw [echoState_root]; exact hroot)]
    simp [appendLine_lines, echoState_lines]
  · intro hroot hrev
    rw [hstep]
    unfold doCat
    rw [if_neg (by decide : ¬ (HIDDEN_FILENAME = READ_ME)), if_pos rfl,
        if_neg (by rw [echoState_root, hroot]; decide),
        if_pos (by rw [echoState_revealedHidden]; exact hrev)]
    simp [appendLine_lines, echoState_lines]
  · intro hroot hrev
    rw [hstep]
    unfold doCat
    rw [if_neg (by decide : ¬ (HIDDEN_FILENAME = READ_ME)), if_pos rfl,
        if_neg (by rw [echoState_root, hroot]; decide),
        if_neg (by rw [echoState_revealedHidden, hrev]; decide)]
    simp [appendLine_lines, echoState_lines]

/-- C3 witness: the three outcomes at concrete states. -/
theorem cat_hidden_trichotomy_witness :
    (onCommand 5 true "cat .shadow" (initialCTF none)).lines =
      (initialCTF none).lines ++
        [⟨promptTop false, .sys⟩, ⟨promptBottom ++ " " ++ jsTrim "cat .shadow", .sys⟩,
         ⟨"cat: " ++ HIDDEN_FILENAME ++ ": No such file or directory", .err⟩] ∧
    (onCommand 5 true "cat .shadow" { initialCTF none with root := true }).lines =
      ({ initialCTF none with root := true } : CTFState).lines ++
        [⟨promptTop true, .sys⟩, ⟨promptBottom ++ " " ++ jsTrim "cat .shadow", .sys⟩,
         ⟨"Permission denied (list with -a after escalation).", .err⟩] ∧
    (onCommand 5 true "cat .shadow"
        { initialCTF none with root := true, revealedHidden := true }).lines =
      ({ initialCTF none with root := true, revealedHidden := true } : CTFState).lines ++
        [⟨promptTop true, .sys⟩, ⟨promptBottom ++ " " ++ jsTrim "cat .shadow", .sys⟩,
         ⟨cipherRiddle, .out⟩] :=
  ⟨by
     have h := (cat_hidden_trichotomy (initialCTF none) 5 true "cat .shadow"
       (by decide) (by decide) (by decide)).1 (by decide)
     simpa using h,
   by
     have h := ((cat_hidden_trichotomy { initialCTF none with root := true } 5 true
       "cat .shadow" (by decide) (by decide) (by decide)).2.1 (by decide)) (by decide)
     simpa using h,
   by
     have h := ((cat_hidden_trichotomy
       { initialCTF none with root := true, revealedHidden := true } 5 true
       "cat .shadow" (by decide) (by decide) (by decide)).2.2 (by decide)) (by decide)
     simpa using h⟩

/-- C4 counterexample: from the root directory, resolving the target
`projects/zzz` concatenates the candidate `~/projects/zzz`, which is not
in the registry — yet the result is `~/projects`, not the caller\x27s prior
path `~`: the resolver falls back to the registered first-level
directory instead of rejecting. -/
theorem resolve_unregistered_moves :
    resolvePath "~" "projects/zzz" = "~/projects" ∧
    candidateOf "~" (jsTrim "projects/zzz") = "~/projects/zzz" ∧
    directorySet.contains "~/projects/zzz" = false ∧
    ("~/projects" : String) ≠ "~" := by decide

/-- C4 (amended): for every current directory and non-empty general
target (not `~`/`.`/`..`), resolution validates the *first-level prefix*
`~/<first>` of the concatenated candidate against the registry: if that
prefix is unregistered the caller keeps its prior path; the result is
always either the prior path or a registered directory; and a candidate
that is itself registered — including the one extra nesting level under
the certifications category — resolves to exactly that candidate. -/
theorem resolve_validates_first_level (current target : String)
    (h0 : jsTrim target ≠ "") (h1 : jsTrim target ≠ "~")
    (h2 : jsTrim target ≠ ".") (h3 : jsTrim target ≠ "..") :
    (resolvePath current target = current ∨
      directorySet.contains (resolvePath current target) = true) ∧
    (directorySet.contains (firstLevelOf (candidateOf current (jsTrim target))) = false →
      resolvePath current target = current) ∧
    (directorySet.contains (candidateOf current (jsTrim target)) = true →
      resolvePath current target = candidateOf current (jsTrim target)) := by
  rw [resolvePath_general current target h0 h1 h2 h3]
  refine ⟨resolveCandidate_result current _, ?_, ?_⟩
  · intro h
    rw [← Bool.not_eq_true] at h
    exact resolveCandidate_not_registered current _ (by simpa using h)
  · intro h
    exact resolveCandidate_registered current _ h

/-- C4 witness: a registered two-level certifications path resolves to
itself; an unregistered first level keeps the prior path. -/
theorem resolve_validates_first_level_witness :
    jsTrim "certifications/cloud" ≠ "" ∧
    resolvePath "~" "certifications/cloud" = candidateOf "~" (jsTrim "certifications/cloud") ∧
    resolvePath "~" "zzz" = "~" :=
  ⟨by decide,
   (resolve_validates_first_level "~" "certifications/cloud"
      (by decide) (by decide) (by decide) (by decide)).2.2 (by decide),
   (resolve_validates_first_level "~" "zzz"
      (by decide) (by decide) (by decide) (by decide)).2.1 (by decide)⟩

/-- C5 counterexample: if the successful flag submission is the very
first command of the session, the handler reads the stale
`startTime = null` snapshot (its own `setStartTime` is batched), so even
though no stored best exists, nothing is persisted and no best time is
recorded — contradicting "overwritten exactly when no stored best exists
or elapsed is strictly smaller". -/
theorem best_time_first_command_counterexample :
    (onCommand 1000 true "submit FLAG\x7bur_cr@ck3d_brUh\x7d" (initialCTF none)).solved = true ∧
    (initialCTF none).store = none ∧
    (onCommand 1000 true "submit FLAG\x7bur_cr@ck3d_brUh\x7d" (initialCTF none)).store = none ∧
    (onCommand 1000 true "submit FLAG\x7bur_cr@ck3d_brUh\x7d" (initialCTF none)).bestTime = none := by
  decide

/-- C5 (amended): on a successful flag submission that is not itself the
first command of the session (the timer snapshot `startTime` is already
set, from the first non-empty command), elapsed is `now - startTime`,
and it is compared against the best — the in-memory cached value when
present (populated at mount from the store, or by an earlier solve), and
otherwise the value lazily parsed from the store: the persisted value is
overwritten with elapsed exactly when no best exists or elapsed is
strictly smaller; otherwise the store is left untouched.  The three
conjuncts cover no-best-anywhere, cached best, and uncached stored
best. -/
theorem best_time_policy (s : CTFState) (now : Nat) (raw : String) (st : Nat)
    (hap : s.awaitingPassword = false)
    (hcmd : (splitWs (jsTrim raw)).headD "" = "submit")
    (harg : argOf raw = FINAL_FLAG)
    (hst : s.startTime = some st) :
    (s.bestTime = none → truthyStore s.store = none →
      (onCommand now true raw s).store = some (Nat.repr (now - st)) ∧
      (onCommand now true raw s).bestTime = some (JSNum.num (now - st))) ∧
    (∀ b : Nat, s.bestTime = some (JSNum.num b) →
      (now - st < b →
        (onCommand now true raw s).store = some (Nat.repr (now - st)) ∧
        (onCommand now true raw s).bestTime = some (JSNum.num (now - st))) ∧
      (¬ now - st < b →
        (onCommand now true raw s).store = s.store ∧
        (onCommand now true raw s).bestTime = some (JSNum.num b))) ∧
    (∀ b : Nat, ∀ str : String, s.bestTime = none → s.store = some str →
      parseFloat str = JSNum.num b →
      (now - st < b →
        (onCommand now true raw s).store = some (Nat.repr (now - st)) ∧
        (onCommand now true raw s).bestTime = some (JSNum.num (now - st))) ∧
      (¬ now - st < b →
        (onCommand now true raw s).store = some str ∧
        (onCommand now true raw s).bestTime = some (JSNum.num b))) := by
  rw [onCommand_submit_eq now true raw s hap hcmd, if_pos harg, hst]
  refine ⟨?_, ?_, ?_⟩
  · intro hbt hts
    have hbt2 : (echoState now raw s).bestTime = none := by
      rw [echoState_bestTime, hbt]
    rw [submitSuccess_store_lazy _ _ _ hbt2, submitSuccess_bestTime_lazy _ _ _ hbt2,
        echoState_store, hts]
    exact ⟨rfl, rfl⟩
  · intro b hbt
    have hbt2 : (echoState now raw s).bestTime = some (JSNum.num b) := by
      rw [echoState_bestTime, hbt]
    rw [submitSuccess_store_cached _ _ _ _ hbt2,
        submitSuccess_bestTime_cached _ _ _ _ hbt2, echoState_store]
    constructor
    · intro hlt
      rw [if_pos hlt, if_pos hlt]
      exact ⟨rfl, rfl⟩
    · intro hnlt
      rw [if_neg hnlt, if_neg hnlt]
      exact ⟨rfl, rfl⟩
  · intro b str hbt hstore hp
    have hbt2 : (echoState now raw s).bestTime = none := by
      rw [echoState_bestTime, hbt]
    rw [submitSuccess_store_lazy _ _ _ hbt2, submitSuccess_bestTime_lazy _ _ _ hbt2,
        echoState_store, hstore]
    have hne : str ≠ "" := by
      intro he
      rw [he] at hp
      have hnan : parseFloat "" = JSNum.nan := by decide
      rw [hnan] at hp
      cases hp
    have hts : truthyStore (some str) = some str := by
      simp [truthyStore, hne]
    rw [hts]
    dsimp only
    rw [hp]
    dsimp only
    constructor
    · intro hlt
      rw [if_pos hlt, if_pos hlt]
      exact ⟨rfl, rfl⟩
    · intro hnlt
      rw [if_neg hnlt, if_neg hnlt]
      exact ⟨rfl, rfl⟩

/-- C5 witness: from the mount state over a persisted best of `5000` (so
the cached best is `5000`, as in a real session) with the timer started
at 0 ms: elapsed `3000` updates the store to `3000`; elapsed `8000`
leaves it at `5000`. -/
theorem best_time_policy_witness :
    ({ initialCTF (some "5000") with startTime := some 0 } : CTFState).bestTime =
      some (JSNum.num 5000) ∧
    (onCommand 3000 true "submit FLAG\x7bur_cr@ck3d_brUh\x7d"
        { initialCTF (some "5000") with startTime := some 0 }).store = some "3000" ∧
    (onCommand 8000 true "submit FLAG\x7bur_cr@ck3d_brUh\x7d"
        { initialCTF (some "5000") with startTime := some 0 }).store = some "5000" :=
  ⟨by decide,
   by
     have h := (((best_time_policy { initialCTF (some "5000") with startTime := some 0 }
       3000 "submit FLAG\x7bur_cr@ck3d_brUh\x7d" 0 (by decide) (by decide) (by decide)
       (by decide)).2.1 5000 (by decide)).1 (by decide)).1
     simpa using h,
   by
     have h := (((best_time_policy { initialCTF (some "5000") with startTime := some 0 }
       8000 "submit FLAG\x7bur_cr@ck3d_brUh\x7d" 0 (by decide) (by decide) (by decide)
       (by decide)).2.1 5000 (by decide)).2 (by decide)).1
     simpa using h⟩

/-- C6: while awaiting the sudo password, any two wrong non-empty guesses
produce bit-identical results — even under different storage-write
outcomes — and that result appends exactly one Error line
"Sorry, try again." to the transcript, keeps `awaitingPassword` true and
changes no other observable field; in particular the attempted password
never appears in the transcript. -/
theorem wrong_password_uniform (s : CTFState) (now : Nat) (w1 w2 : Bool)
    (g1 g2 : String) (hap : s.awaitingPassword = true)
    (h1 : jsTrim g1 ≠ PASSWORD) (h2 : jsTrim g2 ≠ PASSWORD)
    (h1e : jsTrim g1 ≠ "") (h2e : jsTrim g2 ≠ "") :
    onCommand now w1 g1 s = onCommand now w2 g2 s ∧
    (onCommand now w1 g1 s).lines = s.lines ++ [⟨"Sorry, try again.", .err⟩] ∧
    (onCommand now w1 g1 s).awaitingPassword = true ∧
    (onCommand now w1 g1 s).root = s.root ∧
    (onCommand now w1 g1 s).solved = s.solved ∧
    (onCommand now w1 g1 s).revealedHidden = s.revealedHidden ∧
    (onCommand now w1 g1 s).store = s.store := by
  rw [onCommand_awaiting_wrong now w1 g1 s hap h1 h1e,
      onCommand_awaiting_wrong now w2 g2 s hap h2 h2e]
  refine ⟨rfl, ?_, ?_, ?_, ?_, ?_, ?_⟩ <;>
    simp [appendLine, startStamp_lines, startStamp_awaitingPassword, hap,
      startStamp_root, startStamp_solved, startStamp_revealedHidden, startStamp_store]

/-- C6 witness: two distinct wrong guesses from the awaiting state yield
the same state, with the single fixed error line. -/
theorem wrong_password_uniform_witness :
    awaitingProbe.awaitingPassword = true ∧
    onCommand 9 true "hunter2" awaitingProbe = onCommand 9 false "letmein" awaitingProbe ∧
    (onCommand 9 true "hunter2" awaitingProbe).lines =
      awaitingProbe.lines ++ [⟨"Sorry, try again.", .err⟩] :=
  ⟨by decide,
   (wrong_password_uniform awaitingProbe 9 true false "hunter2" "letmein"
      (by decide) (by decide) (by decide) (by decide) (by decide)).1,
   (wrong_password_uniform awaitingProbe 9 true false "hunter2" "letmein"
      (by decide) (by decide) (by decide) (by decide) (by decide)).2.1⟩

/-- C7 counterexample: `cd nonexistent-dir` from `~` leaves the path
unchanged and emits exactly one error line, but its text is
`bash: cd: nonexistent-dir: No such file or directory` — the claimed form
without the `bash: ` prefix appears nowhere in the output. -/
theorem cd_error_has_bash_prefix :
    (execCd "~" "cd nonexistent-dir" "nonexistent-dir").1 = "~" ∧
    (execCd "~" "cd nonexistent-dir" "nonexistent-dir").2 =
      [termPromptTop "~", termPromptBottom "cd nonexistent-dir",
       ⟨"bash: cd: nonexistent-dir: No such file or directory", .error⟩] ∧
    (∀ l ∈ (execCd "~" "cd nonexistent-dir" "nonexistent-dir").2,
      l.content ≠ "cd: nonexistent-dir: No such file or directory") := by decide

/-- C7 (amended): for `cd <target>` with a non-empty target other than
`.` and `~`, when resolution keeps the prior path the interpreter emits
exactly one Error line `bash: cd: <target>: No such file or directory`
(note the `bash: ` prefix) and `currentPath` is unchanged; when
resolution yields a different path, `currentPath` is updated to it and
only the two prompt echo lines are emitted. -/
theorem cd_resolution_behavior (cur raw target : String)
    (h0 : target ≠ "") (h1 : target ≠ ".") (h2 : target ≠ "~") :
    (resolvePath cur target = cur →
      (execCd cur raw target).1 = cur ∧
      (execCd cur raw target).2 = [termPromptTop cur, termPromptBottom raw,
        ⟨"bash: cd: " ++ target ++ ": No such file or directory", .error⟩]) ∧
    (resolvePath cur target ≠ cur →
      (execCd cur raw target).1 = resolvePath cur target ∧
      (execCd cur raw target).2 = [termPromptTop cur, termPromptBottom raw]) := by
  simp only [execCd]
  constructor
  · intro h
    rw [if_pos h, if_pos ⟨h0, h1, h2⟩]
    exact ⟨rfl, rfl⟩
  · intro h
    rw [if_neg h]
    exact ⟨rfl, rfl⟩

/-- C7 witness: the failing and succeeding `cd` branches at concrete
inputs. -/
theorem cd_resolution_behavior_witness :
    ("nonexistent-dir" : String) ≠ "" ∧
    (execCd "~" "cd nonexistent-dir" "nonexistent-dir").2 =
      [termPromptTop "~", termPromptBottom "cd nonexistent-dir",
       ⟨"bash: cd: " ++ "nonexistent-dir" ++ ": No such file or directory", .error⟩] ∧
    (execCd "~" "cd projects" "projects").1 = resolvePath "~" "projects" :=
  ⟨by decide,
   ((cd_resolution_behavior "~" "cd nonexistent-dir" "nonexistent-dir"
      (by decide) (by decide) (by decide)).1 (by decide)).2,
   ((cd_resolution_behavior "~" "cd projects" "projects"
      (by decide) (by decide) (by decide)).2 (by decide)).1⟩

/-- C8: every listing of the portfolio terminal is lexicographically
sorted by name with the sentinel `on-going.txt`, when present, always
last; and in the CTF shell the hidden sentinel file, when present in a
listing, comes after every other entry (it never precedes one). -/
theorem listings_sorted_sentinel_last :
    (∀ p : String,
      sortedExceptLast "on-going.txt" ((listDirectory p).map Entry.name)) ∧
    (∀ isRoot all : Bool,
      List.Pairwise (fun a _ => a ≠ HIDDEN_FILENAME) (ctfLsEntries isRoot all)) := by
  constructor
  · intro p
    simp only [listDirectory]
    by_cases hA : normalizePath p = "~"
    · rw [if_pos hA]; decide
    · rw [if_neg hA]
      by_cases hB : normalizePath p = "~/certifications"
      · rw [if_pos hB]; decide
      · rw [if_neg hB]
        by_cases hC : isCertCategoryPath (normalizePath p) = true
        · rw [if_pos hC]
          have h5 : normalizePath p = "~/certifications/cloud" ∨
              normalizePath p = "~/certifications/cybersecurity" ∨
              normalizePath p = "~/certifications/leadership" ∨
              normalizePath p = "~/certifications/participations" ∨
              normalizePath p = "~/certifications/programming" := by
            simpa [isCertCategoryPath, categoryNames] using hC
          rcases h5 with h | h | h | h | h <;> rw [h] <;> decide
        · rw [if_neg hC]
          by_cases hD : normalizePath p = "~/projects"
          · rw [if_pos hD]; decide
          · rw [if_neg hD]; decide
  · intro r a
    cases r <;> cases a <;> decide

/-- C9 counterexample: a persisted best of `"abc"` does not load as
"none" — it loads as `NaN` — and a subsequent solve does *not* behave as
if no best existed: nothing is persisted (the store keeps `"abc"`
instead of receiving the elapsed 3000), although the solve itself
completes. -/
theorem best_time_parse_failure_counterexample :
    loadBest (some "abc") = some JSNum.nan ∧
    nanProbe.bestTime = some JSNum.nan ∧
    (onCommand 3000 true "submit FLAG\x7bur_cr@ck3d_brUh\x7d" nanProbe).solved = true ∧
    (onCommand 3000 true "submit FLAG\x7bur_cr@ck3d_brUh\x7d" nanProbe).store = some "abc" ∧
    (onCommand 3000 true "submit FLAG\x7bur_cr@ck3d_brUh\x7d" nanProbe).bestTime =
      some JSNum.nan := by decide

/-- C9 (amended): reading the persisted best yields "none" when the key
is absent or the stored string empty; a non-empty stored value that
fails to parse yields `NaN` as the loaded best, and a solve over a
`NaN` best never updates the persisted value (every `NaN` comparison is
false) though the solve still completes; and a failing persistence write
is swallowed: the transcript, solved status and cached best are
identical to a successful write. -/
theorem best_time_read_write_fallback :
    loadBest none = none ∧
    loadBest (some "") = none ∧
    (∀ str : String, parseFloat str = JSNum.nan → str ≠ "" →
      loadBest (some str) = some JSNum.nan) ∧
    (∀ s : CTFState, ∀ now : Nat, ∀ raw : String,
      s.awaitingPassword = false →
      (splitWs (jsTrim raw)).headD "" = "submit" →
      argOf raw = FINAL_FLAG →
      s.bestTime = some JSNum.nan →
      (onCommand now true raw s).store = s.store ∧
      (onCommand now true raw s).solved = true) ∧
    (∀ s : CTFState, ∀ now : Nat, ∀ raw : String,
      s.awaitingPassword = false →
      (splitWs (jsTrim raw)).headD "" = "submit" →
      argOf raw = FINAL_FLAG →
      (onCommand now false raw s).lines = (onCommand now true raw s).lines ∧
      (onCommand now false raw s).solved = (onCommand now true raw s).solved ∧
      (onCommand now false raw s).bestTime = (onCommand now true raw s).bestTime) := by
  refine ⟨rfl, rfl, ?_, ?_, ?_⟩
  · intro str hp hne
    simp [loadBest, truthyStore, hne, hp]
  · intro s now raw hap hcmd harg hbt
    rw [onCommand_submit_eq now true raw s hap hcmd, if_pos harg]
    refine ⟨?_, submitSuccess_solved _ _ _ _⟩
    have hbt2 : (echoState now raw s).bestTime = some JSNum.nan := by
      rw [echoState_bestTime, hbt]
    rcases hstt : s.startTime with _ | st
    · unfold submitSuccess
      simp [appendLine, echoState_store]
    · rw [submitSuccess_store_nan _ _ _ _ hbt2, echoState_store]
  · intro s now raw hap hcmd harg
    rw [onCommand_submit_eq now false raw s hap hcmd,
        onCommand_submit_eq now true raw s hap hcmd, if_pos harg, if_pos harg]
    exact ⟨by rw [submitSuccess_lines, submitSuccess_lines],
      by rw [submitSuccess_solved, submitSuccess_solved],
      submitSuccess_bestTime_indep _ _ _ _⟩

/-- C9 witness: the parse-failure load at `"abc"`, the NaN-best solve
keeping the store, and write-failure invisibility at a concrete solve. -/
theorem best_time_read_write_fallback_witness :
    parseFloat "abc" = JSNum.nan ∧
    loadBest (some "abc") = some JSNum.nan ∧
    (onCommand 3000 true "submit FLAG\x7bur_cr@ck3d_brUh\x7d" nanProbe).store =
      nanProbe.store ∧
    (onCommand 3000 false "submit FLAG\x7bur_cr@ck3d_brUh\x7d" (bestTimeProbe (some "5000"))).lines =
      (onCommand 3000 true "submit FLAG\x7bur_cr@ck3d_brUh\x7d" (bestTimeProbe (some "5000"))).lines :=
  ⟨by decide,
   best_time_read_write_fallback.2.2.1 "abc" (by decide) (by decide),
   (best_time_read_write_fallback.2.2.2.1 nanProbe 3000
      "submit FLAG\x7bur_cr@ck3d_brUh\x7d" (by decide) (by decide) (by decide)
      (by decide)).1,
   (best_time_read_write_fallback.2.2.2.2 (bestTimeProbe (some "5000")) 3000
      "submit FLAG\x7bur_cr@ck3d_brUh\x7d" (by decide) (by decide) (by decide)).1⟩

/-- C10: the Root privilege flag and the `revealedHidden` flag are
monotone over every sequence of events — command lines (including
`clear` and wrong submissions), Replay clicks (which reset only the
transcript, solved status, celebration latch and timer) and render
passes: once true they never become false. -/
theorem root_reveal_monotone (evs : List Event) (s : CTFState) :
    (s.root = true → (runEvents s evs).root = true) ∧
    (s.revealedHidden = true → (runEvents s evs).revealedHidden = true) := by
  induction evs generalizing s with
  | nil => exact ⟨fun h => h, fun h => h⟩
  | cons e rest ih =>
    constructor
    · intro h
      exact (ih (applyEvent s e)).1 (applyEvent_root_mono s e h)
    · intro h
      exact (ih (applyEvent s e)).2 (applyEvent_reveal_mono s e h)

/-- C10 witness: from a rooted, revealed state, a `clear`, a Replay
click, a render pass and a wrong submission leave both flags true. -/
theorem root_reveal_monotone_witness :
    ({ initialCTF none with root := true, revealedHidden := true } : CTFState).root = true ∧
    (runEvents { initialCTF none with root := true, revealedHidden := true }
      [.cmd 1 true "clear", .replayClick, .rendered, .cmd 2 true "submit x"]).root = true ∧
    (runEvents { initialCTF none with root := true, revealedHidden := true }
      [.cmd 1 true "clear", .replayClick, .rendered, .cmd 2 true "submit x"]).revealedHidden = true :=
  ⟨by decide,
   (root_reveal_monotone [.cmd 1 true "clear", .replayClick, .rendered, .cmd 2 true "submit x"]
      { initialCTF none with root := true, revealedHidden := true }).1 (by decide),
   (root_reveal_monotone [.cmd 1 true "clear", .replayClick, .rendered, .cmd 2 true "submit x"]
      { initialCTF none with root := true, revealedHidden := true }).2 (by decide)⟩

end Whoami
